import Mathlib

/-!
Shallow embedding of the client-side synchronization engine of the
`obs-mod-toys` repository (file `canvas/src/lib/canvas-store.ts`, in its
complete form: the variant that defines `RequestObjects`, `handleObjects`,
`handleActionReport` and the four local mutation functions).

TypeScript `number` payloads (coordinates, image dimensions) are embedded as
`Int`: the claims under study are structural (codec round-trips, store
mutations), none depends on fractional values, and JSON text round-trips
JavaScript numbers exactly.

Svelte's `Tweened` motion store is embedded as an explicit value: the
currently rendered value together with the animation target and the
transition options last supplied to `set`.
-/

namespace ObsModToys

/-- `export type Uuid = string`. -/
abbrev Uuid := String

/-- `export type Position = \x7b x: number; y: number \x7d`. -/
structure Position where
  x : Int
  y : Int
deriving DecidableEq, Repr

/-- `export type TextObject`, `export type ImageObject` and the tagged union
`export type Object` (discriminated by `ObjectType`). -/
inductive Object where
  | text (text : String)
  | image (url : String) (width : Int) (height : Int)
deriving DecidableEq, Repr

/-- The tagged union `ObjectServerAction`, discriminated by
`ObjectServerActionType`. -/
inductive ObjectServerAction where
  | createObject (id : Uuid) (object : Object) (initial_position : Position)
  | moveObject (id : Uuid) (position : Position)
  | removeObject (id : Uuid)
  | clearObjects
deriving DecidableEq, Repr

/-- `export type ObjectServerActionMoveObject`. -/
structure ObjectServerActionMoveObject where
  id : Uuid
  position : Position
deriving DecidableEq, Repr

/-- `export type ObjectServerActionRemoveObject`. -/
structure ObjectServerActionRemoveObject where
  id : Uuid
deriving DecidableEq, Repr

/-- `export type DefinedObject = \x7b position: Position; object: Object \x7d`. -/
structure DefinedObject where
  position : Position
  object : Object
deriving DecidableEq, Repr

/-- `export type DefinedObjectWithId = \x7b id: Uuid; object: DefinedObject \x7d`. -/
structure DefinedObjectWithId where
  id : Uuid
  object : DefinedObject
deriving DecidableEq, Repr

/-- Value model of svelte's `Tweened<Position>` motion store: `value` is the
currently rendered position, `target`/`delay`/`duration` record the animation
target and the transition options last supplied to `set`. -/
structure Tweened where
  value : Position
  target : Position
  delay : Nat
  duration : Nat
deriving DecidableEq, Repr

/-- `tweened(p)` builds a motion store at rest at `p` (svelte's default
transition duration is 400ms). -/
def tweened (p : Position) : Tweened :=
  { value := p, target := p, delay := 0, duration := 400 }

/-- `store.set(p, opts)`: re-targets the transition. A zero-duration
transition resolves immediately, snapping the rendered value to `p`;
otherwise the rendered value animates toward `p` over time (time is not
modelled, so `value` keeps its pre-`set` reading). -/
def Tweened.set (t : Tweened) (p : Position) (delay duration : Nat) : Tweened :=
  if duration = 0 then
    { value := p, target := p, delay := delay, duration := duration }
  else
    { t with target := p, delay := delay, duration := duration }

/-- `export type LocalDefinedObject`. -/
structure LocalDefinedObject where
  id : Uuid
  remotePosition : Position
  localPosition : Tweened
  object : Object
deriving DecidableEq, Repr

/-- `type CanvasState = \x7b objects: LocalDefinedObject[] \x7d`. -/
structure CanvasState where
  objects : List LocalDefinedObject
deriving DecidableEq, Repr

/-- The tagged union `ClientMessage`, discriminated by `ClientMessageType`. -/
inductive ClientMessage where
  | authenticate (username : String) (password : String)
  | serverAction (action : ObjectServerAction)
  | requestObjects
deriving DecidableEq, Repr

/-- `export type ServerMessageServerActionReported = \x7b action: ObjectServerAction \x7d`. -/
structure ServerMessageServerActionReported where
  action : ObjectServerAction
deriving DecidableEq, Repr

/-- `export type ServerMessageObjects = \x7b objects: DefinedObjectWithId[] \x7d`. -/
structure ServerMessageObjects where
  objects : List DefinedObjectWithId
deriving DecidableEq, Repr

/-- The tagged union `ServerMessage`, discriminated by `ServerMessageType`. -/
inductive ServerMessage where
  | authenticated
  | error (message : String)
  | serverActionReported (action : ObjectServerAction)
  | objects (objects : List DefinedObjectWithId)
deriving DecidableEq, Repr

/-! ## Object Store mutations

Each `canvasState.update(...)` call in the source becomes a pure function
`CanvasState → CanvasState`. -/

/-- `createObjectLocal(id, object, initial_position)`: appends a new
`LocalDefinedObject` (spread `[...canvasState.objects, \x7b...\x7d]`) with
`remotePosition = initial_position` and a fresh tween at `initial_position`. -/
def createObjectLocal (id : Uuid) (object : Object) (initial_position : Position)
    (s : CanvasState) : CanvasState :=
  { s with
    objects := s.objects ++
      [{ id := id
         remotePosition := initial_position
         localPosition := tweened initial_position
         object := object }] }

/-- `moveObjectLocal(data, immediate)`: maps over the objects; the one whose
`id` matches gets `remotePosition := data.position` and its tween re-targeted
with duration 0 (when `immediate`) or 100; every other object is returned
unchanged. -/
def moveObjectLocal (data : ObjectServerActionMoveObject) (immediate : Bool)
    (s : CanvasState) : CanvasState :=
  { s with
    objects := s.objects.map fun object =>
      if object.id = data.id then
        { object with
          remotePosition := data.position
          localPosition :=
            object.localPosition.set data.position 0 (if immediate then 0 else 100) }
      else
        object }

/-- `removeObjectLocal(data)`: filters out every object whose `id` equals
`data.id`. -/
def removeObjectLocal (data : ObjectServerActionRemoveObject)
    (s : CanvasState) : CanvasState :=
  { s with objects := s.objects.filter fun object => object.id != data.id }

/-- `clearObjectsLocal()`: empties the object list. -/
def clearObjectsLocal (s : CanvasState) : CanvasState :=
  { s with objects := [] }

/-- `handleObjects(msg)`: rebuilds the whole object list from the snapshot,
with `remotePosition = position` and a fresh tween at `position` for every
entry. -/
def handleObjects (msg : ServerMessageObjects) (s : CanvasState) : CanvasState :=
  { s with
    objects := msg.objects.map fun object =>
      { id := object.id
        localPosition := tweened object.object.position
        object := object.object.object
        remotePosition := object.object.position } }

/-- `handleActionReport(msg)`: dispatches the reported action through the four
local mutation functions (the `MoveObject` branch passes no `immediate` flag,
so it defaults to `false`). -/
def handleActionReport (msg : ServerMessageServerActionReported)
    (s : CanvasState) : CanvasState :=
  match msg.action with
  | .createObject id object initial_position =>
      createObjectLocal id object initial_position s
  | .moveObject id position => moveObjectLocal { id := id, position := position } false s
  | .removeObject id => removeObjectLocal { id := id } s
  | .clearObjects => clearObjectsLocal s

/-! ## Wire codec

Envelopes travel as one JSON text frame each (`JSON.stringify` outbound,
`JSON.parse` inbound). The JSON tree produced by `JSON.stringify` of the
TypeScript object literals is embedded as a `Json` value; its textual
serialization is the platform's and is injective, so the codec claims are
settled at the tree level. Decoding reads the tree back following the tagged
union schema declared by the TypeScript types: dispatch on the `"type"` field,
then the named fields of the matching variant. -/

/-- A JSON tree (numeric payloads exact, see the header note). -/
inductive Json where
  | str (s : String)
  | num (n : Int)
  | arr (elems : List Json)
  | obj (fields : List (String × Json))

/-- Field lookup in a JSON object (first binding wins, as in JSON objects
produced by `JSON.stringify`, whose keys are unique). -/
def Json.getField : Json → String → Option Json
  | .obj fields, name => (fields.find? fun f => f.fst == name).map Prod.snd
  | _, _ => none

/-- Read a JSON string. -/
def Json.asStr : Json → Option String
  | .str s => some s
  | _ => none

/-- Read a JSON number. -/
def Json.asNum : Json → Option Int
  | .num n => some n
  | _ => none

/-- Read a JSON array. -/
def Json.asArr : Json → Option (List Json)
  | .arr elems => some elems
  | _ => none

/-- `JSON.stringify` of a `Position` literal. -/
def encodePosition (p : Position) : Json :=
  .obj [("x", .num p.x), ("y", .num p.y)]

/-- `JSON.stringify` of an `Object` literal (tagged by `ObjectType`). -/
def encodeObject : Object → Json
  | .text text => .obj [("type", .str "Text"), ("text", .str text)]
  | .image url width height =>
      .obj [("type", .str "Image"), ("url", .str url),
            ("width", .num width), ("height", .num height)]

/-- `JSON.stringify` of an `ObjectServerAction` literal (tagged by
`ObjectServerActionType`). -/
def encodeObjectServerAction : ObjectServerAction → Json
  | .createObject id object initial_position =>
      .obj [("type", .str "CreateObject"), ("id", .str id),
            ("object", encodeObject object),
            ("initial_position", encodePosition initial_position)]
  | .moveObject id position =>
      .obj [("type", .str "MoveObject"), ("id", .str id),
            ("position", encodePosition position)]
  | .removeObject id =>
      .obj [("type", .str "RemoveObject"), ("id", .str id)]
  | .clearObjects =>
      .obj [("type", .str "ClearObjects")]

/-- `JSON.stringify` of a `DefinedObject` literal. -/
def encodeDefinedObject (d : DefinedObject) : Json :=
  .obj [("position", encodePosition d.position), ("object", encodeObject d.object)]

/-- `JSON.stringify` of a `DefinedObjectWithId` literal. -/
def encodeDefinedObjectWithId (d : DefinedObjectWithId) : Json :=
  .obj [("id", .str d.id), ("object", encodeDefinedObject d.object)]

/-- `JSON.stringify` of a `ClientMessage` literal (tagged by
`ClientMessageType`), as built by `sendAuthenticate` / `sendServerAction` /
`handleAuthenticated`. -/
def encodeClientMessage : ClientMessage → Json
  | .authenticate username password =>
      .obj [("type", .str "Authenticate"), ("username", .str username),
            ("password", .str password)]
  | .serverAction action =>
      .obj [("type", .str "ServerAction"), ("action", encodeObjectServerAction action)]
  | .requestObjects =>
      .obj [("type", .str "RequestObjects")]

/-- `JSON.stringify` of a `ServerMessage` literal (tagged by
`ServerMessageType`). -/
def encodeServerMessage : ServerMessage → Json
  | .authenticated => .obj [("type", .str "Authenticated")]
  | .error message => .obj [("type", .str "Error"), ("message", .str message)]
  | .serverActionReported action =>
      .obj [("type", .str "ServerActionReported"),
            ("action", encodeObjectServerAction action)]
  | .objects objects =>
      .obj [("type", .str "Objects"),
            ("objects", .arr (objects.map encodeDefinedObjectWithId))]

/-- Decode a `Position` from its JSON tree. -/
def decodePosition (j : Json) : Option Position := do
  let x ← (← j.getField "x").asNum
  let y ← (← j.getField "y").asNum
  pure { x := x, y := y }

/-- Decode an `Object`, dispatching on the `"type"` tag; an unknown tag fails. -/
def decodeObject (j : Json) : Option Object := do
  let ty ← (← j.getField "type").asStr
  if ty = "Text" then
    let text ← (← j.getField "text").asStr
    pure (.text text)
  else if ty = "Image" then
    let url ← (← j.getField "url").asStr
    let width ← (← j.getField "width").asNum
    let height ← (← j.getField "height").asNum
    pure (.image url width height)
  else
    none

/-- Decode an `ObjectServerAction`, dispatching on the `"type"` tag. -/
def decodeObjectServerAction (j : Json) : Option ObjectServerAction := do
  let ty ← (← j.getField "type").asStr
  if ty = "CreateObject" then
    let id ← (← j.getField "id").asStr
    let object ← decodeObject (← j.getField "object")
    let initial_position ← decodePosition (← j.getField "initial_position")
    pure (.createObject id object initial_position)
  else if ty = "MoveObject" then
    let id ← (← j.getField "id").asStr
    let position ← decodePosition (← j.getField "position")
    pure (.moveObject id position)
  else if ty = "RemoveObject" then
    let id ← (← j.getField "id").asStr
    pure (.removeObject id)
  else if ty = "ClearObjects" then
    pure .clearObjects
  else
    none

/-- Decode a `DefinedObject` from its JSON tree. -/
def decodeDefinedObject (j : Json) : Option DefinedObject := do
  let position ← decodePosition (← j.getField "position")
  let object ← decodeObject (← j.getField "object")
  pure { position := position, object := object }

/-- Decode a `DefinedObjectWithId` from its JSON tree. -/
def decodeDefinedObjectWithId (j : Json) : Option DefinedObjectWithId := do
  let id ← (← j.getField "id").asStr
  let object ← decodeDefinedObject (← j.getField "object")
  pure { id := id, object := object }

/-- Decode every element of a JSON array, failing if any element fails. -/
def decodeList (f : Json → Option α) : List Json → Option (List α)
  | [] => some []
  | j :: rest => do
      let a ← f j
      let as ← decodeList f rest
      pure (a :: as)

/-- Decode a `ClientMessage`, dispatching on the `"type"` tag. -/
def decodeClientMessage (j : Json) : Option ClientMessage := do
  let ty ← (← j.getField "type").asStr
  if ty = "Authenticate" then
    let username ← (← j.getField "username").asStr
    let password ← (← j.getField "password").asStr
    pure (.authenticate username password)
  else if ty = "ServerAction" then
    let action ← decodeObjectServerAction (← j.getField "action")
    pure (.serverAction action)
  else if ty = "RequestObjects" then
    pure .requestObjects
  else
    none

/-- Decode a `ServerMessage`, dispatching on the `"type"` tag; an unknown tag
fails (the receive switch falls through). -/
def decodeServerMessage (j : Json) : Option ServerMessage := do
  let ty ← (← j.getField "type").asStr
  if ty = "Authenticated" then
    pure .authenticated
  else if ty = "Error" then
    let message ← (← j.getField "message").asStr
    pure (.error message)
  else if ty = "ServerActionReported" then
    let action ← decodeObjectServerAction (← j.getField "action")
    pure (.serverActionReported action)
  else if ty = "Objects" then
    let elems ← (← j.getField "objects").asArr
    let objects ← decodeList decodeDefinedObjectWithId elems
    pure (.objects objects)
  else
    none

/-! ## Transport session and dispatcher

The module-level globals `canvasState` and `socketStore`, plus the frames
handed to `WebSocket.send`, are gathered into an explicit `World` record.
`socketStore = none` models the null socket (disconnected: construction
failed, or `onclose` ran); `some ()` models a held `WebSocket` handle. -/

/-- The mutable module state: the canvas store, the socket handle, and the
frames handed to `WebSocket.send` so far (in order). -/
structure World where
  canvas : CanvasState
  socketStore : Option Unit
  outbox : List Json

/-- `sendSocketMessage(msg)`: if `socketStore === null` it returns at once
(the frame is neither sent nor queued); otherwise it stringifies `msg` and
hands the frame to `socket.send`. -/
def sendSocketMessage (msg : ClientMessage) (w : World) : World :=
  match w.socketStore with
  | none => w
  | some _ => { w with outbox := w.outbox ++ [encodeClientMessage msg] }

/-- `sendServerAction(action)`. -/
def sendServerAction (action : ObjectServerAction) (w : World) : World :=
  sendSocketMessage (.serverAction action) w

/-- One statement of a dispatcher body: a canvas mutation or an outgoing
send. -/
inductive Step where
  | mutate (f : CanvasState → CanvasState)
  | send (msg : ClientMessage)

/-- Execute one step against the world. -/
def execStep (w : World) : Step → World
  | .mutate f => { w with canvas := f w.canvas }
  | .send msg => sendSocketMessage msg w

/-- Execute a list of steps in order. -/
def execSteps (w : World) : List Step → World
  | [] => w
  | st :: rest => execSteps (execStep w st) rest

/-- A user-initiated intent, as exposed by the exported entry points
(`createObject` with its freshly generated id, `moveObject`, `removeObject`,
`clearObjects`). -/
inductive Intent where
  | create (id : Uuid) (object : Object) (initial_position : Position)
  | move (data : ObjectServerActionMoveObject) (immediate : Bool)
  | remove (data : ObjectServerActionRemoveObject)
  | clear

/-- The statements of each exported entry point, in source order: the local
mutation first, then `sendServerAction` with the corresponding action. -/
def intentSteps : Intent → List Step
  | .create id object initial_position =>
      [ .mutate (createObjectLocal id object initial_position),
        .send (.serverAction (.createObject id object initial_position)) ]
  | .move data immediate =>
      [ .mutate (moveObjectLocal data immediate),
        .send (.serverAction (.moveObject data.id data.position)) ]
  | .remove data =>
      [ .mutate (removeObjectLocal data),
        .send (.serverAction (.removeObject data.id)) ]
  | .clear =>
      [ .mutate clearObjectsLocal,
        .send (.serverAction .clearObjects) ]

/-- The Object Store mutation an intent performs: the `*Local` function the
entry point calls. -/
def intentMutation : Intent → CanvasState → CanvasState
  | .create id object initial_position => createObjectLocal id object initial_position
  | .move data immediate => moveObjectLocal data immediate
  | .remove data => removeObjectLocal data
  | .clear => clearObjectsLocal

/-- The intent whose local mutation `handleActionReport` performs for a given
reported action (the `MoveObject` branch runs with `immediate = false`). -/
def intentOfAction : ObjectServerAction → Intent
  | .createObject id object initial_position => .create id object initial_position
  | .moveObject id position => .move { id := id, position := position } false
  | .removeObject id => .remove { id := id }
  | .clearObjects => .clear

/-! ## Receive path over runtime values

`handleSocketMessage` performs no schema validation: `JSON.parse`'s result is
cast unchecked to `ServerMessage`, the switches dispatch on the `type` tags
alone, and whatever the payload fields hold — including `undefined` for
missing fields — flows into the mutation functions. The receive path is
therefore modelled over JavaScript runtime values: the values `JSON.parse`
can produce plus `undefined`. A property read on `undefined`/`null` throws a
`TypeError`; every throw raised while routing happens synchronously inside
the handler's `try` (for `handleObjects`, inside the store updater, before
`set` runs), so it aborts the mutation, is caught and logged, and leaves the
state unchanged. `Option` models this: `none` is a caught throw. -/

/-- A JavaScript runtime value in the receive path. -/
inductive JsValue where
  | undefined
  | null
  | bool (b : Bool)
  | num (n : Int)
  | str (s : String)
  | arr (elems : List JsValue)
  | obj (fields : List (String × JsValue))

/-- Property read `v.name`: throws (`none`) on `undefined`/`null`; on an
object yields the field, or `undefined` when absent; on every other value
yields `undefined`. -/
def JsValue.getProp : JsValue → String → Option JsValue
  | .undefined, _ => none
  | .null, _ => none
  | .obj fields, name =>
      some (((fields.find? fun f => f.fst == name).map Prod.snd).getD .undefined)
  | _, _ => some .undefined

/-- JavaScript `===` as the store uses it: value equality on primitives;
`false` across types and between objects/arrays (reference equality — every
reference in a freshly parsed frame is distinct from every stored value). -/
def JsValue.strictEq : JsValue → JsValue → Bool
  | .undefined, .undefined => true
  | .null, .null => true
  | .bool a, .bool b => a == b
  | .num a, .num b => a == b
  | .str a, .str b => a == b
  | _, _ => false

/-- A `Tweened` store over runtime values (a `tweened(undefined)` or a `set`
to `undefined` does not throw synchronously; a failing interpolation would
surface only asynchronously, outside the handler). -/
structure DynTweened where
  value : JsValue
  target : JsValue
  delay : Nat
  duration : Nat

/-- `tweened(v)` over runtime values. -/
def dynTweened (v : JsValue) : DynTweened :=
  { value := v, target := v, delay := 0, duration := 400 }

/-- `store.set(v, opts)` over runtime values. -/
def DynTweened.set (t : DynTweened) (v : JsValue) (delay duration : Nat) : DynTweened :=
  if duration = 0 then
    { value := v, target := v, delay := delay, duration := duration }
  else
    { t with target := v, delay := delay, duration := duration }

/-- A stored object as the runtime sees it: the four fields hold whatever
values the mutation that created them received. -/
structure DynLocalObject where
  id : JsValue
  remotePosition : JsValue
  localPosition : DynTweened
  object : JsValue

/-- The canvas store as the runtime sees it. -/
structure DynCanvasState where
  objects : List DynLocalObject

/-- Module state for the receive path: the runtime canvas, the socket handle,
and the frames handed to `WebSocket.send`. -/
structure DynWorld where
  canvas : DynCanvasState
  socketStore : Option Unit
  outbox : List Json

/-- `sendSocketMessage(msg)` against the runtime world (outbound messages are
built from typed literals, so they encode as usual). -/
def dynSendSocketMessage (msg : ClientMessage) (w : DynWorld) : DynWorld :=
  match w.socketStore with
  | none => w
  | some _ => { w with outbox := w.outbox ++ [encodeClientMessage msg] }

/-- `handleAuthenticated(msg)`: logs, then requests the full snapshot. -/
def dynHandleAuthenticated (w : DynWorld) : DynWorld :=
  dynSendSocketMessage .requestObjects w

/-- `createObjectLocal(id, object, initial_position)` as reached from the
receive path: appends the entry built from whatever values the unchecked
cast supplied. -/
def dynCreateObjectLocal (id object initial_position : JsValue)
    (s : DynCanvasState) : DynCanvasState :=
  { s with
    objects := s.objects ++
      [{ id := id
         remotePosition := initial_position
         localPosition := dynTweened initial_position
         object := object }] }

/-- `moveObjectLocal(data)` as reached from the receive path: `===` match on
`id`, re-target the tween, update `remotePosition`. -/
def dynMoveObjectLocal (dataId dataPosition : JsValue) (immediate : Bool)
    (s : DynCanvasState) : DynCanvasState :=
  { s with
    objects := s.objects.map fun object =>
      if object.id.strictEq dataId then
        { object with
          remotePosition := dataPosition
          localPosition :=
            object.localPosition.set dataPosition 0 (if immediate then 0 else 100) }
      else
        object }

/-- `removeObjectLocal(data)` as reached from the receive path. -/
def dynRemoveObjectLocal (dataId : JsValue) (s : DynCanvasState) : DynCanvasState :=
  { s with objects := s.objects.filter fun object => !(object.id.strictEq dataId) }

/-- `clearObjectsLocal()` as reached from the receive path. -/
def dynClearObjectsLocal (s : DynCanvasState) : DynCanvasState :=
  { s with objects := [] }

/-- `handleActionReport(msg)` over runtime values: reads `msg.action.type`
(throwing if `action` is `undefined`/`null`) and switches on it with `===`;
a recognized tag routes the payload fields as-is into the matching local
mutation; an unrecognized tag falls through with no mutation. -/
def dynHandleActionReport (msg : JsValue) :
    Option (DynCanvasState → DynCanvasState) := do
  let action ← msg.getProp "action"
  let ty ← action.getProp "type"
  if ty.strictEq (.str "CreateObject") then
    let id ← action.getProp "id"
    let object ← action.getProp "object"
    let initial_position ← action.getProp "initial_position"
    pure (dynCreateObjectLocal id object initial_position)
  else if ty.strictEq (.str "MoveObject") then
    let id ← action.getProp "id"
    let position ← action.getProp "position"
    pure (dynMoveObjectLocal id position false)
  else if ty.strictEq (.str "RemoveObject") then
    let id ← action.getProp "id"
    pure (dynRemoveObjectLocal id)
  else if ty.strictEq (.str "ClearObjects") then
    pure dynClearObjectsLocal
  else
    pure (fun s => s)

/-- One element of `handleObjects`'s rebuild: reads `object.id`,
`object.object.position` and `object.object.object`, throwing on junk
elements (`object` itself or its `object` field `undefined`/`null`). -/
def dynSnapshotEntry (object : JsValue) : Option DynLocalObject := do
  let id ← object.getProp "id"
  let inner ← object.getProp "object"
  let position ← inner.getProp "position"
  let innerObject ← inner.getProp "object"
  pure { id := id
         remotePosition := position
         localPosition := dynTweened position
         object := innerObject }

/-- Left-to-right rebuild of the snapshot list; a throw on any element aborts
the whole update. -/
def dynSnapshotList : List JsValue → Option (List DynLocalObject)
  | [] => some []
  | j :: rest => do
      let e ← dynSnapshotEntry j
      let es ← dynSnapshotList rest
      pure (e :: es)

/-- `handleObjects(msg)` over runtime values: reads `msg.objects` and calls
`.map` on it — a `TypeError` unless it is an array — then rebuilds each
entry. -/
def dynHandleObjects (msg : JsValue) : Option (List DynLocalObject) := do
  let objectsV ← msg.getProp "objects"
  match objectsV with
  | .arr elems => dynSnapshotList elems
  | _ => none

/-- The `try` body of `handleSocketMessage`: read `parsed.type`, switch with
`===` against the four known tags, and route; an unmatched tag falls
through. `none` is a throw escaping to the `catch`. -/
def dynRoute (parsed : JsValue) (w : DynWorld) : Option DynWorld := do
  let ty ← parsed.getProp "type"
  if ty.strictEq (.str "Authenticated") then
    pure (dynHandleAuthenticated w)
  else if ty.strictEq (.str "Error") then
    pure w
  else if ty.strictEq (.str "ServerActionReported") then do
    let f ← dynHandleActionReport parsed
    pure { w with canvas := f w.canvas }
  else if ty.strictEq (.str "Objects") then do
    let objects ← dynHandleObjects parsed
    pure { w with canvas := { w.canvas with objects := objects } }
  else
    pure w

/-- An inbound `MessageEvent` as `handleSocketMessage` sees it, after the
platform `JSON.parse` step (a browser primitive outside this repository):
`blob` is a non-text frame; `text none` is a text frame whose body is not
valid JSON (`JSON.parse` throws, caught by the handler); `text (some v)` is a
text frame parsed to the runtime value `v`. -/
inductive DynFrame where
  | blob
  | text (parsed : Option JsValue)

/-- `handleSocketMessage(socket, ev)`: non-text frames return at once; a text
frame is parsed and routed by tag, with no payload validation; any exception
raised while routing (`JSON.parse` itself, a property read on
`undefined`/`null`, `.map` on a non-array) aborts the store update before it
commits and is caught and logged, leaving the world unchanged. -/
def dynHandleSocketMessage (ev : DynFrame) (w : DynWorld) : DynWorld :=
  match ev with
  | .blob => w
  | .text none => w
  | .text (some parsed) =>
      match dynRoute parsed w with
      | none => w
      | some w' => w'

/-! ## Helper lemmas -/

/-- Position codec round-trip. -/
theorem decodePosition_encode (p : Position) : decodePosition (encodePosition p) = some p := by
  cases p; rfl

/-- Object codec round-trip. -/
theorem decodeObject_encode (o : Object) : decodeObject (encodeObject o) = some o := by
  cases o <;> rfl

/-- Action codec round-trip. -/
theorem decodeAction_encode (a : ObjectServerAction) :
    decodeObjectServerAction (encodeObjectServerAction a) = some a := by
  cases a <;>
    simp [decodeObjectServerAction, encodeObjectServerAction, Json.getField,
      Json.asStr, decodeObject_encode, decodePosition_encode, List.find?, Option.bind]

/-- DefinedObject codec round-trip. -/
theorem decodeDefinedObject_encode (d : DefinedObject) :
    decodeDefinedObject (encodeDefinedObject d) = some d := by
  cases d
  simp [decodeDefinedObject, encodeDefinedObject, Json.getField, decodeObject_encode,
    decodePosition_encode, List.find?, Option.bind]

/-- DefinedObjectWithId codec round-trip. -/
theorem decodeDefinedObjectWithId_encode (d : DefinedObjectWithId) :
    decodeDefinedObjectWithId (encodeDefinedObjectWithId d) = some d := by
  cases d
  simp [decodeDefinedObjectWithId, encodeDefinedObjectWithId, Json.getField, Json.asStr,
    decodeDefinedObject_encode, List.find?, Option.bind]

/-- Snapshot list codec round-trip. -/
theorem decodeList_encode (l : List DefinedObjectWithId) :
    decodeList decodeDefinedObjectWithId (l.map encodeDefinedObjectWithId) = some l := by
  induction l with
  | nil => rfl
  | cons h t ih => simp [decodeList, decodeDefinedObjectWithId_encode, ih]

/-- ClientMessage codec round-trip. -/
theorem decodeClientMessage_encode (m : ClientMessage) :
    decodeClientMessage (encodeClientMessage m) = some m := by
  cases m <;>
    simp [decodeClientMessage, encodeClientMessage, Json.getField, Json.asStr,
      decodeAction_encode, List.find?, Option.bind]

/-- ServerMessage codec round-trip. -/
theorem decodeServerMessage_encode (m : ServerMessage) :
    decodeServerMessage (encodeServerMessage m) = some m := by
  cases m <;>
    simp [decodeServerMessage, encodeServerMessage, Json.getField, Json.asStr, Json.asArr,
      decodeAction_encode, decodeList_encode, List.find?, Option.bind]

/-- `moveObjectLocal` never changes the list of ids (in order). -/
theorem moveObjectLocal_map_id (d : ObjectServerActionMoveObject) (imm : Bool)
    (s : CanvasState) :
    (moveObjectLocal d imm s).objects.map (fun o => o.id) = s.objects.map (fun o => o.id) := by
  simp only [moveObjectLocal, List.map_map]
  apply List.map_congr_left
  intro o _
  by_cases hid : o.id = d.id <;> simp [hid]

/-- After `moveObjectLocal d`, every object carrying `d.id` has
`remotePosition = d.position`. -/
theorem moveObjectLocal_remote (d : ObjectServerActionMoveObject) (imm : Bool)
    (s : CanvasState) :
    ∀ o ∈ (moveObjectLocal d imm s).objects, o.id = d.id → o.remotePosition = d.position := by
  intro o ho hid
  simp only [moveObjectLocal, List.mem_map] at ho
  obtain ⟨o0, _, rfl⟩ := ho
  by_cases h0 : o0.id = d.id
  · simp [h0]
  · simp only [h0, if_false] at hid

/-- `===` between two runtime strings is string equality. -/
theorem JsValue.strictEq_str (a b : String) :
    (JsValue.str a).strictEq (JsValue.str b) = (a == b) := rfl

/-! ## Claims -/

/-- C1 (counterexample): applying `createObjectLocal` twice with identical
arguments is not the same as applying it once — starting from the empty
canvas, the duplicate Create yields a different state, and the result holds
two entries sharing the id `"a"` (the entry is appended, not overwritten). -/
theorem c1_create_counterexample :
    (createObjectLocal "a" (.text "hi") ⟨0, 0⟩
        (createObjectLocal "a" (.text "hi") ⟨0, 0⟩ ⟨[]⟩)
      ≠ createObjectLocal "a" (.text "hi") ⟨0, 0⟩ ⟨[]⟩)
    ∧ ¬ ((createObjectLocal "a" (.text "hi") ⟨0, 0⟩
          (createObjectLocal "a" (.text "hi") ⟨0, 0⟩ ⟨[]⟩)).objects.map
            (fun o => o.id)).Nodup := by
  constructor <;> decide

/-- C1 (amended): applying `removeObjectLocal` or `clearObjectsLocal` twice
with identical arguments yields the same `CanvasState` as applying once;
`createObjectLocal` is not idempotent — a Create whose id is already present
appends a second entry with the same id rather than overwriting, so after a
duplicate Create the id occurs twice more than before. -/
theorem c1_idempotence_amended (s : CanvasState) (rdata : ObjectServerActionRemoveObject)
    (cid : Uuid) (object : Object) (p : Position) :
    removeObjectLocal rdata (removeObjectLocal rdata s) = removeObjectLocal rdata s
    ∧ clearObjectsLocal (clearObjectsLocal s) = clearObjectsLocal s
    ∧ createObjectLocal cid object p (createObjectLocal cid object p s)
        ≠ createObjectLocal cid object p s
    ∧ ((createObjectLocal cid object p (createObjectLocal cid object p s)).objects.map
          (fun o => o.id)).count cid
        = (s.objects.map (fun o => o.id)).count cid + 2 := by
  refine ⟨?_, rfl, ?_, ?_⟩
  · simp [removeObjectLocal, List.filter_filter]
  · intro h
    have hlen := congrArg (fun st => st.objects.length) h
    simp [createObjectLocal] at hlen
  · simp [createObjectLocal, List.count_append]

/-- C2: `handleObjects` (the snapshot handler) replaces the entire mapping —
the result does not depend on the prior state, the resulting ids are exactly
the snapshot's ids in order, and every resulting entry carries the snapshot's
object with remote position and rendered (tween value and target) position
all equal to the snapshot's position. -/
theorem c2_snapshot_replaces (msg : ServerMessageObjects) (s sPrior : CanvasState) :
    handleObjects msg s = handleObjects msg sPrior
    ∧ (handleObjects msg s).objects.map (fun o => o.id)
        = msg.objects.map (fun d => d.id)
    ∧ ∀ lo ∈ (handleObjects msg s).objects, ∃ dw ∈ msg.objects,
        lo.id = dw.id ∧ lo.object = dw.object.object
        ∧ lo.remotePosition = dw.object.position
        ∧ lo.localPosition.value = dw.object.position
        ∧ lo.localPosition.target = dw.object.position := by
  refine ⟨rfl, ?_, ?_⟩
  · simp [handleObjects, List.map_map]
  · intro lo hlo
    simp only [handleObjects, List.mem_map] at hlo
    obtain ⟨dw, hdw, rfl⟩ := hlo
    exact ⟨dw, hdw, rfl, rfl, rfl, rfl, rfl⟩

/-- C2 witness: the snapshot `[A@(1,1), B@(2,2)]` applied over a junk prior
state yields an entry for `A` at `(1,1)` with remote and rendered position
equal to the snapshot's. -/
theorem c2_snapshot_replaces_witness :
    ∃ dw ∈ (ServerMessageObjects.mk
        [⟨"A", ⟨⟨1, 1⟩, .text "a"⟩⟩, ⟨"B", ⟨⟨2, 2⟩, .text "b"⟩⟩]).objects,
      (LocalDefinedObject.mk "A" ⟨1, 1⟩ (tweened ⟨1, 1⟩) (.text "a")).id = dw.id
      ∧ (LocalDefinedObject.mk "A" ⟨1, 1⟩ (tweened ⟨1, 1⟩) (.text "a")).object
          = dw.object.object
      ∧ (LocalDefinedObject.mk "A" ⟨1, 1⟩ (tweened ⟨1, 1⟩) (.text "a")).remotePosition
          = dw.object.position
      ∧ (LocalDefinedObject.mk "A" ⟨1, 1⟩ (tweened ⟨1, 1⟩) (.text "a")).localPosition.value
          = dw.object.position
      ∧ (LocalDefinedObject.mk "A" ⟨1, 1⟩ (tweened ⟨1, 1⟩) (.text "a")).localPosition.target
          = dw.object.position :=
  (c2_snapshot_replaces (ServerMessageObjects.mk
      [⟨"A", ⟨⟨1, 1⟩, .text "a"⟩⟩, ⟨"B", ⟨⟨2, 2⟩, .text "b"⟩⟩])
    (CanvasState.mk [⟨"old", ⟨9, 9⟩, tweened ⟨9, 9⟩, .text "junk"⟩])
    (CanvasState.mk [])).2.2
    (LocalDefinedObject.mk "A" ⟨1, 1⟩ (tweened ⟨1, 1⟩) (.text "a")) (by decide)

/-- C3: when no object in the state carries the id, `moveObjectLocal` and
`removeObjectLocal` leave the `CanvasState` unchanged (a benign no-op, with
no error path — both are total). -/
theorem c3_missing_id_noop (mid : Uuid) (p : Position) (imm : Bool) (s : CanvasState)
    (h : ∀ o ∈ s.objects, o.id ≠ mid) :
    moveObjectLocal ⟨mid, p⟩ imm s = s ∧ removeObjectLocal ⟨mid⟩ s = s := by
  constructor
  · cases s with
    | mk objs =>
      simp only [moveObjectLocal]
      congr 1
      have heach : objs.map (fun object =>
          if object.id = mid then
            { object with
              remotePosition := p
              localPosition := object.localPosition.set p 0 (if imm then 0 else 100) }
          else object) = objs.map (fun o => o) := by
        apply List.map_congr_left
        intro o ho
        simp [h o ho]
      simpa using heach
  · cases s with
    | mk objs =>
      simp only [removeObjectLocal]
      congr 1
      apply List.filter_eq_self.mpr
      intro o ho
      simpa using h o ho

/-- C3 witness: moving or removing the absent id `"a"` in a one-object state
holding only `"b"` returns the state unchanged. -/
theorem c3_missing_id_noop_witness :
    moveObjectLocal ⟨"a", ⟨10, 20⟩⟩ false
        (CanvasState.mk [⟨"b", ⟨0, 0⟩, tweened ⟨0, 0⟩, .text "x"⟩])
      = CanvasState.mk [⟨"b", ⟨0, 0⟩, tweened ⟨0, 0⟩, .text "x"⟩]
    ∧ removeObjectLocal ⟨"a"⟩
        (CanvasState.mk [⟨"b", ⟨0, 0⟩, tweened ⟨0, 0⟩, .text "x"⟩])
      = CanvasState.mk [⟨"b", ⟨0, 0⟩, tweened ⟨0, 0⟩, .text "x"⟩] :=
  c3_missing_id_noop "a" ⟨10, 20⟩ false
    (CanvasState.mk [⟨"b", ⟨0, 0⟩, tweened ⟨0, 0⟩, .text "x"⟩]) (by decide)

/-- C4: `handleActionReport` routes every reported action through exactly the
mutation of the corresponding local intent (single code path); and after a
local Move of an existing id to `p` followed by the echoed
`ServerActionReported` Move of the same id to `p`, the id list is exactly the
original one (nothing duplicated or dropped) and the object still carries
remote position `p` (not reverted). -/
theorem c4_single_code_path_echo (a : ObjectServerAction) (mid : Uuid) (p : Position)
    (imm : Bool) (s : CanvasState) (h : ∃ o ∈ s.objects, o.id = mid) :
    handleActionReport ⟨a⟩ s = intentMutation (intentOfAction a) s
    ∧ (handleActionReport ⟨.moveObject mid p⟩
          (moveObjectLocal ⟨mid, p⟩ imm s)).objects.map (fun o => o.id)
        = s.objects.map (fun o => o.id)
    ∧ (∀ o ∈ (handleActionReport ⟨.moveObject mid p⟩
          (moveObjectLocal ⟨mid, p⟩ imm s)).objects,
        o.id = mid → o.remotePosition = p)
    ∧ ∃ o ∈ (handleActionReport ⟨.moveObject mid p⟩
          (moveObjectLocal ⟨mid, p⟩ imm s)).objects,
        o.id = mid ∧ o.remotePosition = p := by
  have hroute : handleActionReport ⟨ObjectServerAction.moveObject mid p⟩
      (moveObjectLocal ⟨mid, p⟩ imm s)
      = moveObjectLocal ⟨mid, p⟩ false (moveObjectLocal ⟨mid, p⟩ imm s) := rfl
  have hids : (handleActionReport ⟨ObjectServerAction.moveObject mid p⟩
      (moveObjectLocal ⟨mid, p⟩ imm s)).objects.map (fun o => o.id)
      = s.objects.map (fun o => o.id) := by
    rw [hroute, moveObjectLocal_map_id, moveObjectLocal_map_id]
  have hrem : ∀ o ∈ (handleActionReport ⟨ObjectServerAction.moveObject mid p⟩
      (moveObjectLocal ⟨mid, p⟩ imm s)).objects,
      o.id = mid → o.remotePosition = p := by
    rw [hroute]
    exact moveObjectLocal_remote ⟨mid, p⟩ false _
  refine ⟨?_, hids, hrem, ?_⟩
  · cases a <;> rfl
  · obtain ⟨o, ho, hoid⟩ := h
    have hmem : mid ∈ (handleActionReport ⟨ObjectServerAction.moveObject mid p⟩
        (moveObjectLocal ⟨mid, p⟩ imm s)).objects.map (fun o => o.id) := by
      rw [hids]
      exact List.mem_map.mpr ⟨o, ho, hoid⟩
    obtain ⟨o', ho', hoid'⟩ := List.mem_map.mp hmem
    exact ⟨o', ho', hoid', hrem o' ho' hoid'⟩

/-- C4 witness: after a local Move of `"a"` to `(5,5)` and the echoed
reported Move of `"a"` to `(5,5)`, the object `"a"` is present with remote
position `(5,5)`. -/
theorem c4_single_code_path_echo_witness :
    ∃ o ∈ (handleActionReport ⟨.moveObject "a" ⟨5, 5⟩⟩
        (moveObjectLocal ⟨"a", ⟨5, 5⟩⟩ true
          (CanvasState.mk [⟨"a", ⟨0, 0⟩, tweened ⟨0, 0⟩, .text "hi"⟩]))).objects,
      o.id = "a" ∧ o.remotePosition = ⟨5, 5⟩ :=
  (c4_single_code_path_echo .clearObjects "a" ⟨5, 5⟩ true
    (CanvasState.mk [⟨"a", ⟨0, 0⟩, tweened ⟨0, 0⟩, .text "hi"⟩]) (by decide)).2.2.2

/-- C5: for every user intent and every world (any transport state), running
the dispatcher body leaves the canvas at exactly the local mutation of the
prior canvas, and the body splits into a send-free prefix — after which the
canvas already shows the mutation and the outbox shows no transport
interaction — followed by a remainder containing the outgoing send. -/
theorem c5_optimistic_local_first (i : Intent) (w : World) :
    (execSteps w (intentSteps i)).canvas = intentMutation i w.canvas
    ∧ ∃ pre post, intentSteps i = pre ++ post
        ∧ (∀ msg, Step.send msg ∉ pre)
        ∧ (execSteps w pre).canvas = intentMutation i w.canvas
        ∧ (execSteps w pre).outbox = w.outbox
        ∧ ∃ msg, Step.send msg ∈ post := by
  obtain ⟨c, sock, ob⟩ := w
  cases i <;>
    refine ⟨by cases sock <;> rfl,
      [.mutate _], [.send _], rfl, by simp, rfl, rfl, _, List.mem_singleton.mpr rfl⟩

/-- C6: the codec round-trips — decoding the encoding of any action, any
client→relay envelope and any relay→client envelope returns it intact. -/
theorem c6_codec_roundtrip (a : ObjectServerAction) (cm : ClientMessage)
    (sm : ServerMessage) :
    decodeObjectServerAction (encodeObjectServerAction a) = some a
    ∧ decodeClientMessage (encodeClientMessage cm) = some cm
    ∧ decodeServerMessage (encodeServerMessage sm) = some sm :=
  ⟨decodeAction_encode a, decodeClientMessage_encode cm, decodeServerMessage_encode sm⟩

/-- C7: with no socket held (`socketStore = none`, the disconnected session),
`sendSocketMessage` returns the world unchanged — nothing raised, nothing
sent, nothing queued. -/
theorem c7_send_disconnected_noop (msg : ClientMessage) (w : World)
    (h : w.socketStore = none) :
    sendSocketMessage msg w = w := by
  simp [sendSocketMessage, h]

/-- C7 witness: sending `RequestObjects` on a disconnected world returns it
unchanged. -/
theorem c7_send_disconnected_noop_witness :
    sendSocketMessage .requestObjects (World.mk (CanvasState.mk []) none [])
      = World.mk (CanvasState.mk []) none [] :=
  c7_send_disconnected_noop .requestObjects (World.mk (CanvasState.mk []) none []) rfl

/-- C8 (counterexample): the frame
`\x7b"type":"ServerActionReported","action":\x7b"type":"CreateObject"\x7d\x7d` has a
payload that fails schema decoding, yet the receive handler does not discard
it: the tag-only dispatch routes it to the create mutation, which appends a
junk entry — the canvas changes, refuting "leaves CanvasState unchanged". -/
theorem c8_unchecked_payload_counterexample :
    decodeServerMessage (Json.obj [("type", Json.str "ServerActionReported"),
        ("action", Json.obj [("type", Json.str "CreateObject")])]) = none
    ∧ dynHandleSocketMessage
        (.text (some (JsValue.obj [("type", JsValue.str "ServerActionReported"),
          ("action", JsValue.obj [("type", JsValue.str "CreateObject")])])))
        ⟨⟨[]⟩, some (), []⟩
      ≠ ⟨⟨[]⟩, some (), []⟩ := by
  refine ⟨rfl, ?_⟩
  intro h
  have hlen : (1 : Nat) = 0 := congrArg (fun w => w.canvas.objects.length) h
  exact absurd hlen (by decide)

/-- C8 (amended): a non-text frame, a text frame that is not valid JSON, and
a frame carrying an unknown envelope type value (an unrecognized or throwing
top-level `type` read, or a recognized `ServerActionReported` whose action
tag is unrecognized) are discarded without raising a fatal error and leave
the world — canvas included — unchanged; but a frame whose tags are all
recognized is routed into the mutation functions without payload validation,
so a payload failing schema decoding can still change the canvas: a
`ServerActionReported`/`CreateObject` frame with missing fields appends one
entry of `undefined` values. -/
theorem c8_tag_dispatch_amended (ev : DynFrame) (w : DynWorld)
    (h : ev = .blob ∨ ev = .text none
        ∨ (∃ v, ev = .text (some v) ∧ v.getProp "type" = none)
        ∨ (∃ v ty, ev = .text (some v) ∧ v.getProp "type" = some ty
            ∧ ty.strictEq (.str "Authenticated") = false
            ∧ ty.strictEq (.str "Error") = false
            ∧ ty.strictEq (.str "ServerActionReported") = false
            ∧ ty.strictEq (.str "Objects") = false)
        ∨ (∃ v action aty, ev = .text (some v)
            ∧ v.getProp "type" = some (.str "ServerActionReported")
            ∧ v.getProp "action" = some action
            ∧ action.getProp "type" = some aty
            ∧ aty.strictEq (.str "CreateObject") = false
            ∧ aty.strictEq (.str "MoveObject") = false
            ∧ aty.strictEq (.str "RemoveObject") = false
            ∧ aty.strictEq (.str "ClearObjects") = false)) :
    dynHandleSocketMessage ev w = w
    ∧ (dynHandleSocketMessage (.text (some (JsValue.obj
          [("type", JsValue.str "ServerActionReported"),
           ("action", JsValue.obj [("type", JsValue.str "CreateObject")])]))) w).canvas.objects
        = w.canvas.objects ++
          [{ id := JsValue.undefined
             remotePosition := JsValue.undefined
             localPosition := dynTweened JsValue.undefined
             object := JsValue.undefined }] := by
  constructor
  · rcases h with rfl | rfl | ⟨v, rfl, hv⟩ | ⟨v, ty, rfl, hty, h1, h2, h3, h4⟩
      | ⟨v, action, aty, rfl, hty, hact, haty, h1, h2, h3, h4⟩
    · rfl
    · rfl
    · simp [dynHandleSocketMessage, dynRoute, hv]
    · simp [dynHandleSocketMessage, dynRoute, hty, h1, h2, h3, h4]
    · simp [dynHandleSocketMessage, dynRoute, dynHandleActionReport, hty, hact, haty,
        h1, h2, h3, h4, JsValue.strictEq_str]
  · rfl

/-- C8 witness: the unknown-tag frame `\x7b"type":"Ping"\x7d` is discarded over a
connected world, while the tag-only `CreateObject` report appends the
`undefined`-valued entry to that same world. -/
theorem c8_tag_dispatch_amended_witness :
    dynHandleSocketMessage (.text (some (JsValue.obj [("type", JsValue.str "Ping")])))
        ⟨⟨[]⟩, some (), []⟩
      = ⟨⟨[]⟩, some (), []⟩
    ∧ (dynHandleSocketMessage (.text (some (JsValue.obj
          [("type", JsValue.str "ServerActionReported"),
           ("action", JsValue.obj [("type", JsValue.str "CreateObject")])])))
        ⟨⟨[]⟩, some (), []⟩).canvas.objects
        = (⟨⟨[]⟩, some (), []⟩ : DynWorld).canvas.objects ++
          [{ id := JsValue.undefined
             remotePosition := JsValue.undefined
             localPosition := dynTweened JsValue.undefined
             object := JsValue.undefined }] :=
  c8_tag_dispatch_amended (.text (some (JsValue.obj [("type", JsValue.str "Ping")])))
    ⟨⟨[]⟩, some (), []⟩
    (Or.inr (Or.inr (Or.inr (Or.inl ⟨JsValue.obj [("type", JsValue.str "Ping")],
      JsValue.str "Ping", rfl, rfl, rfl, rfl, rfl, rfl⟩))))

end ObsModToys

